import Mathlib

/-!
Verification of the build-profile composition logic in
`electron.vite.config.ts` of the cherry-studio repository.

The config file derives three build profiles (main = Host, preload = Bridge,
renderer = UI) from the process environment, a filesystem root used by
`path.resolve`, and the dependency keys of `package.json`.  Every definition
below is a shallow embedding of that file: object literals become structures,
the environment becomes a read-only lookup function, and JavaScript string
truthiness is made explicit.
-/

namespace ElectronVite

/-- The process environment: a read-only map from variable name to optional
string value (`process.env`). -/
def Env : Type := String → Option String

/-- JavaScript truthiness of an environment lookup result: `undefined` and the
empty string are falsy, every other string is truthy.  This is the test
performed by `process.env[...] ? ... : ...` in the source. -/
def envTruthy : Option String → Bool
  | none => false
  | some s => s != ""

/-- Build-time plugins that appear in the config, as opaque tagged references
with their instantiation parameters. -/
inductive Plugin where
  | visualizer
  | tailwindcss
  | react (tsDecorators : Bool)
  | codeInspector (bundler : String)
deriving DecidableEq, Repr

/-- JavaScript `s.toUpperCase()` for the ASCII plugin-type names used in the
config, modelled as character-wise upper-casing. -/
def toUpperCase (s : String) : String := String.mk (s.data.map Char.toUpper)

/-- `const visualizerPlugin = (type) => process.env[`VISUALIZER_${type.toUpperCase()}`] ? [visualizer({open:true})] : []`. -/
def visualizerPlugin (env : Env) (type : String) : List Plugin :=
  if envTruthy (env ("VISUALIZER_" ++ toUpperCase type)) then [Plugin.visualizer] else []

/-- `const isDev = process.env.NODE_ENV === 'development'`. -/
def isDev (env : Env) : Bool := env "NODE_ENV" == some "development"

/-- `const isProd = process.env.NODE_ENV === 'production'`. -/
def isProd (env : Env) : Bool := env "NODE_ENV" == some "production"

/-- `resolve(rel)` from `path`, resolving a relative segment against the
invocation root (the project directory). -/
def resolvePath (root rel : String) : String := root ++ "/" ++ rel

/-- Esbuild options object: either `{}` or `{ legalComments: 'none' }` in the
source, so the single field is optional. -/
structure EsbuildOptions where
  legalComments : Option String
deriving DecidableEq, Repr

/-- A build-level `sourcemap` entry is "enabled" exactly when the key is
present and `true`; an absent key falls back to the bundler default, which is
off for builds. -/
def sourcemapEnabled (o : Option Bool) : Bool := o == some true

/-- Whether an esbuild options object strips legal comments
(`legalComments: 'none'`). -/
def legalCommentsStripped (e : EsbuildOptions) : Bool := e.legalComments == some "none"

/-- `main.build.rollupOptions.output` in the source. -/
structure MainRollupOutput where
  manualChunks : Option Unit
  inlineDynamicImports : Bool
deriving DecidableEq, Repr

/-- `main.build` in the source.  `sourcemap` is recorded as an optional
boolean because the renderer build omits the key entirely. -/
structure MainBuildOptions where
  external : List String
  output : MainRollupOutput
  sourcemap : Option Bool
deriving DecidableEq, Repr

/-- `main.optimizeDeps` in the source. -/
structure MainOptimizeDeps where
  noDiscovery : Bool
deriving DecidableEq, Repr

/-- The composed Host (main-process) profile. -/
structure MainConfig where
  plugins : List Plugin
  aliases : List (String × String)
  build : MainBuildOptions
  esbuild : EsbuildOptions
  optimizeDeps : MainOptimizeDeps
deriving DecidableEq, Repr

/-- `preload.build` in the source. -/
structure PreloadBuildOptions where
  sourcemap : Option Bool
deriving DecidableEq, Repr

/-- The composed Bridge (preload) profile. -/
structure PreloadConfig where
  plugins : List Plugin
  aliases : List (String × String)
  build : PreloadBuildOptions
deriving DecidableEq, Repr

/-- `renderer.build` in the source: note that no `sourcemap` key is written
there, which the embedding records as `none`. -/
structure RendererBuildOptions where
  target : String
  input : List (String × String)
  sourcemap : Option Bool
deriving DecidableEq, Repr

/-- `renderer.optimizeDeps` in the source. -/
structure RendererOptimizeDeps where
  exclude : List String
  esbuildTarget : String
deriving DecidableEq, Repr

/-- The composed UI (renderer) profile. -/
structure RendererConfig where
  plugins : List Plugin
  aliases : List (String × String)
  optimizeDeps : RendererOptimizeDeps
  workerFormat : String
  build : RendererBuildOptions
  esbuild : EsbuildOptions
deriving DecidableEq, Repr

/-- The full workspace build plan returned by `defineConfig`. -/
structure AppConfig where
  main : MainConfig
  preload : PreloadConfig
  renderer : RendererConfig
deriving DecidableEq, Repr

/-- The `main:` block of the default export, parametrised by the environment,
the filesystem root, and the dependency keys of `package.json`. -/
def mainConfig (env : Env) (root : String) (dependencies : List String) : MainConfig :=
  { plugins := visualizerPlugin env "main"
    aliases := [("@main", resolvePath root "src/main"),
              ("@types", resolvePath root "src/renderer/src/types"),
              ("@shared", resolvePath root "packages/shared"),
              ("@logger", resolvePath root "src/main/services/LoggerService"),
              ("@mcp-trace/trace-core", resolvePath root "packages/mcp-trace/trace-core"),
              ("@mcp-trace/trace-node", resolvePath root "packages/mcp-trace/trace-node")]
    build := { external := ["bufferutil", "utf-8-validate", "electron"] ++ dependencies
               output := { manualChunks := none, inlineDynamicImports := true }
               sourcemap := some (isDev env) }
    esbuild := { legalComments := if isProd env then some "none" else none }
    optimizeDeps := { noDiscovery := isDev env } }

/-- The `preload:` block of the default export. -/
def preloadConfig (env : Env) (root : String) : PreloadConfig :=
  { plugins := [Plugin.react true]
    aliases := [("@shared", resolvePath root "packages/shared"),
              ("@mcp-trace/trace-core", resolvePath root "packages/mcp-trace/trace-core")]
    build := { sourcemap := some (isDev env) } }

/-- The `renderer:` block of the default export. -/
def rendererConfig (env : Env) (root : String) : RendererConfig :=
  { plugins := [Plugin.tailwindcss, Plugin.react true]
        ++ (if isDev env then [Plugin.codeInspector "vite"] else [])
        ++ visualizerPlugin env "renderer"
    aliases := [("@renderer", resolvePath root "src/renderer/src"),
              ("@shared", resolvePath root "packages/shared"),
              ("@types", resolvePath root "src/renderer/src/types"),
              ("@logger", resolvePath root "src/renderer/src/services/LoggerService"),
              ("@cherrystudio/ai-core", resolvePath root "packages/aiCore/src"),
              ("@cherrystudio/extension-table-plus", resolvePath root "packages/extension-table-plus/src")]
    optimizeDeps := { exclude := ["pyodide"], esbuildTarget := "esnext" }
    workerFormat := "es"
    build := { target := "esnext"
               input := [("index", resolvePath root "src/renderer/index.html"),
                         ("miniWindow", resolvePath root "src/renderer/miniWindow.html"),
                         ("selectionToolbar", resolvePath root "src/renderer/selectionToolbar.html"),
                         ("selectionAction", resolvePath root "src/renderer/selectionAction.html"),
                         ("traceWindow", resolvePath root "src/renderer/traceWindow.html")]
               sourcemap := none }
    esbuild := { legalComments := if isProd env then some "none" else none } }

/-- The default export: the full composition, one immutable profile per
target. -/
def composeConfig (env : Env) (root : String) (dependencies : List String) : AppConfig :=
  { main := mainConfig env root dependencies
    preload := preloadConfig env root
    renderer := rendererConfig env root }

/-- The three process targets of the workspace plan. -/
inductive Target where
  | host
  | bridge
  | ui
deriving DecidableEq, Repr

/-- The Alias Map of each target, read off the composed plan. -/
def aliasMap (env : Env) (root : String) (dependencies : List String) : Target → List (String × String)
  | .host => (composeConfig env root dependencies).main.aliases
  | .bridge => (composeConfig env root dependencies).preload.aliases
  | .ui => (composeConfig env root dependencies).renderer.aliases

/-- An environment with only `NODE_ENV=development` set. -/
def devEnv : Env := fun k => if k == "NODE_ENV" then some "development" else none

/-- An environment with nothing set at all. -/
def emptyEnv : Env := fun _ => none

/-- An environment with `NODE_ENV=development` and `VISUALIZER_RENDERER=true`. -/
def devVisEnv : Env := fun k =>
  if k == "NODE_ENV" then some "development"
  else if k == "VISUALIZER_RENDERER" then some "true"
  else none

/-- An environment with only `NODE_ENV=production` set. -/
def prodEnv : Env := fun k => if k == "NODE_ENV" then some "production" else none

/-- One step of JavaScript object-literal construction: a repeated key
silently overwrites the earlier value in place (last write wins); a fresh key
is appended.  No branch rejects. -/
def insertLiteralEntry (acc : List (String × String)) (kv : String × String) :
    List (String × String) :=
  if acc.any (fun e => e.1 == kv.1) then
    acc.map (fun e => if e.1 == kv.1 then (e.1, kv.2) else e)
  else acc ++ [kv]

/-- Dynamic semantics of a JavaScript object literal, as used for the
`resolve.alias` blocks: the entry list is evaluated left to right and folded
into a map.  Construction is total — it returns a map for every entry list,
duplicate keys included, and never fails. -/
def objectLiteral (entries : List (String × String)) : List (String × String) :=
  entries.foldl insertLiteralEntry []

/-- An environment that sets a variable consulted by nothing in the config,
used to show that composition ignores unrelated variables. -/
def otherEnv : Env := fun k => if k == "SOME_OTHER_VAR" then some "x" else none

/-- Both mode flags test the same `NODE_ENV` value, so a true `isProd` forces
`isDev` to be false. -/
theorem isDev_eq_false_of_isProd (env : Env) (h : isProd env = true) : isDev env = false := by
  unfold isDev
  unfold isProd at h
  rw [eq_of_beq h]
  rfl

/-- A true `isDev` forces `isProd` to be false, for the same reason. -/
theorem isProd_eq_false_of_isDev (env : Env) (h : isDev env = true) : isProd env = false := by
  unfold isProd
  unfold isDev at h
  rw [eq_of_beq h]
  rfl

/-- C9: for every environment snapshot, at most one of the flags `isDev` and
`isProd` is true, because both are equality tests on the single `NODE_ENV`
value, so no composition run has both development and production toggles
active at once. -/
theorem c9_modes_mutually_exclusive (env : Env) : (isDev env && isProd env) = false := by
  cases h : isDev env with
  | false => rfl
  | true => rw [isProd_eq_false_of_isDev env h]; rfl

/-- The declared alias entry list of every target has pairwise-distinct
keys. -/
theorem aliasMap_keys_nodup (env : Env) (root : String) (deps : List String) (t : Target) :
    ((aliasMap env root deps t).map Prod.fst).Nodup := by
  cases t
  · have h : (aliasMap env root deps Target.host).map Prod.fst
        = ["@main", "@types", "@shared", "@logger", "@mcp-trace/trace-core",
           "@mcp-trace/trace-node"] := rfl
    rw [h]; decide
  · have h : (aliasMap env root deps Target.bridge).map Prod.fst
        = ["@shared", "@mcp-trace/trace-core"] := rfl
    rw [h]; decide
  · have h : (aliasMap env root deps Target.ui).map Prod.fst
        = ["@renderer", "@shared", "@types", "@logger", "@cherrystudio/ai-core",
           "@cherrystudio/extension-table-plus"] := rfl
    rw [h]; decide

/-- C7 counterexample: the composition has no duplicate-key check — an alias
object literal with a repeated key is built by the last-write-wins fold, so a
declaration that repeats the `@shared` key is silently collapsed to its later
entry instead of being rejected.  This refutes the claim's conjunct that the
composition would reject a duplicate key within one target's map. -/
theorem c7_counterexample :
    objectLiteral [("@shared", "/app/packages/shared"),
                   ("@shared", "/app/packages/mcp-trace/trace-core")]
      = [("@shared", "/app/packages/mcp-trace/trace-core")] ∧
    (objectLiteral [("@shared", "/app/packages/shared"),
                    ("@shared", "/app/packages/mcp-trace/trace-core")]).length = 1 := by
  exact ⟨rfl, rfl⟩

/-- C7 amended: for every target (Host, Bridge, UI), no two entries of that
target's declared Alias Map share a symbolic module-path key, and each
target's alias list is declared independently; the composition performs no
duplicate-key rejection — object-literal construction is total with
last-write-wins for a repeated key — so on the actual duplicate-free
declarations it returns each target's map exactly as declared. -/
theorem c7_amended (env : Env) (root : String) (deps : List String) (t : Target) :
    ((aliasMap env root deps t).map Prod.fst).Nodup ∧
    objectLiteral (aliasMap env root deps t) = aliasMap env root deps t := by
  refine ⟨aliasMap_keys_nodup env root deps t, ?_⟩
  cases t <;> rfl

/-- C5: for every environment snapshot, the UI profile's Entry Set has exactly
the five page names `index`, `miniWindow`, `selectionToolbar`,
`selectionAction`, `traceWindow`, in the declared order, and each page name is
mapped to the matching `.html` file resolved under the UI source root
`src/renderer`; no flag changes this set. -/
theorem c5_entry_set (env : Env) (root : String) (deps : List String) :
    ((composeConfig env root deps).renderer.build.input).map Prod.fst
        = ["index", "miniWindow", "selectionToolbar", "selectionAction", "traceWindow"] ∧
    ∀ p ∈ (composeConfig env root deps).renderer.build.input,
      p.2 = resolvePath root ("src/renderer/" ++ p.1 ++ ".html") := by
  constructor
  · rfl
  · intro p hp
    simp only [composeConfig, rendererConfig, List.mem_cons, List.not_mem_nil, or_false] at hp
    rcases hp with h | h | h | h | h
    all_goals (subst h; rfl)

/-- C5 witness: the Entry Set page names evaluated at a concrete snapshot and
root, via the general statement. -/
theorem c5_entry_set_witness :
    ((composeConfig emptyEnv "/app" []).renderer.build.input).map Prod.fst
      = ["index", "miniWindow", "selectionToolbar", "selectionAction", "traceWindow"] ∧
    ∀ p ∈ (composeConfig emptyEnv "/app" []).renderer.build.input,
      p.2 = resolvePath "/app" ("src/renderer/" ++ p.1 ++ ".html") :=
  c5_entry_set emptyEnv "/app" []

/-- C1 counterexample: in the development snapshot (`NODE_ENV=development`,
nothing else set) `isDev` is true and `isProd` is false, yet the UI
(renderer) profile does not enable source-map emission — its build section
never sets the `sourcemap` key, so it is left at the bundler default (off).
The claim that both the Host and the UI profile enable source maps is
therefore false. -/
theorem c1_counterexample :
    isDev devEnv = true ∧ isProd devEnv = false ∧
    (composeConfig devEnv "/app" []).renderer.build.sourcemap = none ∧
    sourcemapEnabled ((composeConfig devEnv "/app" []).renderer.build.sourcemap) = false := by
  refine ⟨by decide, by decide, by decide, by decide⟩

/-- C1 amended: for every environment snapshot in which `isDev` is true and
`isProd` is false, the Host and Bridge profiles have source-map emission
enabled, the UI profile's build leaves the source-map key unset (bundler
default: off), and the Host and UI profiles both have legal-comment
stripping disabled. -/
theorem c1_amended (env : Env) (root : String) (deps : List String)
    (hdev : isDev env = true) (hprod : isProd env = false) :
    sourcemapEnabled ((composeConfig env root deps).main.build.sourcemap) = true ∧
    sourcemapEnabled ((composeConfig env root deps).preload.build.sourcemap) = true ∧
    (composeConfig env root deps).renderer.build.sourcemap = none ∧
    legalCommentsStripped ((composeConfig env root deps).main.esbuild) = false ∧
    legalCommentsStripped ((composeConfig env root deps).renderer.esbuild) = false := by
  refine ⟨?_, ?_, rfl, ?_, ?_⟩ <;>
    simp [composeConfig, mainConfig, preloadConfig, rendererConfig, sourcemapEnabled,
      legalCommentsStripped, hdev, hprod]

/-- C1 amended witness: the amended statement instantiated at the concrete
development snapshot. -/
theorem c1_amended_witness :
    sourcemapEnabled ((composeConfig devEnv "/app" []).main.build.sourcemap) = true ∧
    sourcemapEnabled ((composeConfig devEnv "/app" []).preload.build.sourcemap) = true ∧
    (composeConfig devEnv "/app" []).renderer.build.sourcemap = none ∧
    legalCommentsStripped ((composeConfig devEnv "/app" []).main.esbuild) = false ∧
    legalCommentsStripped ((composeConfig devEnv "/app" []).renderer.esbuild) = false :=
  c1_amended devEnv "/app" [] (by decide) (by decide)

/-- C3: for every environment snapshot in which `isProd` is true,
legal-comment stripping is enabled in both the Host and the UI profile, and
the UI profile's plugin sequence does not contain the source-inspection
plugin, regardless of the value of every other variable of the snapshot. -/
theorem c3_prod_toggles (env : Env) (root : String) (deps : List String)
    (h : isProd env = true) :
    legalCommentsStripped ((composeConfig env root deps).main.esbuild) = true ∧
    legalCommentsStripped ((composeConfig env root deps).renderer.esbuild) = true ∧
    ∀ b, Plugin.codeInspector b ∉ (composeConfig env root deps).renderer.plugins := by
  have hdev : isDev env = false := isDev_eq_false_of_isProd env h
  refine ⟨?_, ?_, ?_⟩
  · simp [composeConfig, mainConfig, legalCommentsStripped, h]
  · simp [composeConfig, rendererConfig, legalCommentsStripped, h]
  · intro b
    simp only [composeConfig, rendererConfig, hdev, visualizerPlugin]
    split <;> simp_all

/-- C3 witness: the statement instantiated at the concrete production
snapshot. -/
theorem c3_prod_toggles_witness :
    legalCommentsStripped ((composeConfig prodEnv "/app" []).main.esbuild) = true ∧
    legalCommentsStripped ((composeConfig prodEnv "/app" []).renderer.esbuild) = true ∧
    ∀ b, Plugin.codeInspector b ∉ (composeConfig prodEnv "/app" []).renderer.plugins :=
  c3_prod_toggles prodEnv "/app" [] (by decide)

/-- C4: whenever `isDev` is true and the UI visualizer variable is truthy, the
UI profile's plugin sequence is exactly the CSS-utility plugin, the
UI-framework compiler plugin, the source-inspection plugin, and the
bundle-size visualizer, in that order. -/
theorem c4_plugin_order (env : Env) (root : String) (deps : List String)
    (hdev : isDev env = true) (hvis : envTruthy (env "VISUALIZER_RENDERER") = true) :
    (composeConfig env root deps).renderer.plugins
      = [Plugin.tailwindcss, Plugin.react true, Plugin.codeInspector "vite",
         Plugin.visualizer] := by
  have hk : ("VISUALIZER_" ++ toUpperCase "renderer") = "VISUALIZER_RENDERER" := rfl
  simp [composeConfig, rendererConfig, visualizerPlugin, hk, hdev, hvis]

/-- C4 witness: the statement instantiated at the concrete snapshot with
`NODE_ENV=development` and `VISUALIZER_RENDERER=true`. -/
theorem c4_plugin_order_witness :
    (composeConfig devVisEnv "/app" []).renderer.plugins
      = [Plugin.tailwindcss, Plugin.react true, Plugin.codeInspector "vite",
         Plugin.visualizer] :=
  c4_plugin_order devVisEnv "/app" [] (by decide) (by decide)

/-- C2 counterexample: the External list is built by plain concatenation with
no de-duplication, so when the declared dependency list itself contains
`electron` (one of the static exclusions) the result has a duplicate element,
contradicting the claim for every value of the dependency list. -/
theorem c2_external_counterexample :
    (composeConfig emptyEnv "/app" ["electron"]).main.build.external
      = ["bufferutil", "utf-8-validate", "electron", "electron"] ∧
    ¬ ((composeConfig emptyEnv "/app" ["electron"]).main.build.external).Nodup := by
  exact ⟨rfl, by decide⟩

/-- C2 amended: the Host profile's External list is the static exclusion list
`bufferutil`, `utf-8-validate`, `electron` (the host-runtime module) followed
by the declared dependency keys; whenever the dependency keys are themselves
duplicate-free and disjoint from the static list, the External list has no
duplicate element and its element set is exactly the union of the static list
and the dependency keys. -/
theorem c2_external_amended (env : Env) (root : String) (deps : List String)
    (hnd : deps.Nodup)
    (hdisj : ∀ d ∈ deps, d ∉ (["bufferutil", "utf-8-validate", "electron"] : List String)) :
    (composeConfig env root deps).main.build.external
      = ["bufferutil", "utf-8-validate", "electron"] ++ deps ∧
    ((composeConfig env root deps).main.build.external).Nodup ∧
    ((composeConfig env root deps).main.build.external).toFinset
      = {"bufferutil", "utf-8-validate", "electron"} ∪ deps.toFinset := by
  have he : (composeConfig env root deps).main.build.external
      = ["bufferutil", "utf-8-validate", "electron"] ++ deps := rfl
  refine ⟨he, ?_, ?_⟩
  · rw [he, List.nodup_append]
    refine ⟨by decide, hnd, ?_⟩
    intro a ha hb
    exact hdisj a hb ha
  · rw [he, List.toFinset_append]
    congr 1

/-- C2 amended witness: with dependency keys `axios` and `zod` the External
list is duplicate-free and its element set is exactly the five expected
modules. -/
theorem c2_external_amended_witness :
    (composeConfig emptyEnv "/app" ["axios", "zod"]).main.build.external
      = ["bufferutil", "utf-8-validate", "electron"] ++ ["axios", "zod"] ∧
    ((composeConfig emptyEnv "/app" ["axios", "zod"]).main.build.external).Nodup ∧
    ((composeConfig emptyEnv "/app" ["axios", "zod"]).main.build.external).toFinset
      = {"bufferutil", "utf-8-validate", "electron"}
        ∪ (["axios", "zod"] : List String).toFinset :=
  c2_external_amended emptyEnv "/app" ["axios", "zod"] (by decide) (by decide)

/-- C6: the Host profile's plugin sequence contains the bundle-size
visualizer exactly when the `VISUALIZER_MAIN` variable is truthy, and when
the variable is absent the sequence is empty — composition is a total
function, so an absent variable selects the off branch rather than failing. -/
theorem c6_host_visualizer (env : Env) (root : String) (deps : List String) :
    (Plugin.visualizer ∈ (composeConfig env root deps).main.plugins
        ↔ envTruthy (env "VISUALIZER_MAIN") = true) ∧
    (env "VISUALIZER_MAIN" = none → (composeConfig env root deps).main.plugins = []) := by
  have hk : ("VISUALIZER_" ++ toUpperCase "main") = "VISUALIZER_MAIN" := rfl
  constructor
  · simp only [composeConfig, mainConfig, visualizerPlugin, hk]
    split <;> simp_all
  · intro h
    simp only [composeConfig, mainConfig, visualizerPlugin, hk, h]
    rfl

/-- C6 witness: in the empty environment the `VISUALIZER_MAIN` variable is
absent and the Host plugin sequence is empty. -/
theorem c6_host_visualizer_witness :
    emptyEnv "VISUALIZER_MAIN" = none ∧
    (composeConfig emptyEnv "/app" []).main.plugins = [] :=
  ⟨rfl, (c6_host_visualizer emptyEnv "/app" []).2 rfl⟩

/-- C8: composition is deterministic and consults the environment only
through `NODE_ENV`, `VISUALIZER_MAIN` and `VISUALIZER_RENDERER`: any two
snapshots that agree on those three variables, together with identical static
inputs, produce identical Build Profile sets. -/
theorem c8_deterministic (e1 e2 : Env) (root : String) (deps : List String)
    (h1 : e1 "NODE_ENV" = e2 "NODE_ENV")
    (h2 : e1 "VISUALIZER_MAIN" = e2 "VISUALIZER_MAIN")
    (h3 : e1 "VISUALIZER_RENDERER" = e2 "VISUALIZER_RENDERER") :
    composeConfig e1 root deps = composeConfig e2 root deps := by
  have hm : ("VISUALIZER_" ++ toUpperCase "main") = "VISUALIZER_MAIN" := rfl
  have hr : ("VISUALIZER_" ++ toUpperCase "renderer") = "VISUALIZER_RENDERER" := rfl
  simp only [composeConfig, mainConfig, preloadConfig, rendererConfig, visualizerPlugin,
    isDev, isProd, hm, hr, h1, h2, h3]

/-- C8 witness: two concretely different environment functions that agree on
the three consulted variables yield the same composed plan. -/
theorem c8_deterministic_witness :
    composeConfig emptyEnv "/app" ["axios"] = composeConfig otherEnv "/app" ["axios"] :=
  c8_deterministic emptyEnv otherEnv "/app" ["axios"] rfl rfl rfl

/-- C10: when `NODE_ENV` is unset or set to anything other than
`development` or `production`, composition still succeeds and every toggle
takes its off branch: source maps disabled for Host and Bridge, legal
comments kept for Host and UI, the source-inspection plugin absent, and
dependency pre-bundling discovery not disabled. -/
theorem c10_off_defaults (env : Env) (root : String) (deps : List String)
    (hd : env "NODE_ENV" ≠ some "development")
    (hp : env "NODE_ENV" ≠ some "production") :
    (composeConfig env root deps).main.build.sourcemap = some false ∧
    (composeConfig env root deps).preload.build.sourcemap = some false ∧
    legalCommentsStripped ((composeConfig env root deps).main.esbuild) = false ∧
    legalCommentsStripped ((composeConfig env root deps).renderer.esbuild) = false ∧
    (∀ b, Plugin.codeInspector b ∉ (composeConfig env root deps).renderer.plugins) ∧
    (composeConfig env root deps).main.optimizeDeps.noDiscovery = false := by
  have hdev : isDev env = false := by
    unfold isDev; exact beq_eq_false_iff_ne.mpr hd
  have hprod : isProd env = false := by
    unfold isProd; exact beq_eq_false_iff_ne.mpr hp
  refine ⟨?_, ?_, ?_, ?_, ?_, ?_⟩
  · simp [composeConfig, mainConfig, hdev]
  · simp [composeConfig, preloadConfig, hdev]
  · simp [composeConfig, mainConfig, legalCommentsStripped, hprod]
  · simp [composeConfig, rendererConfig, legalCommentsStripped, hprod]
  · intro b
    simp only [composeConfig, rendererConfig, hdev, visualizerPlugin]
    split <;> simp_all
  · simp [composeConfig, mainConfig, hdev]

/-- C10 witness: the statement instantiated at the empty environment, where
`NODE_ENV` is absent. -/
theorem c10_off_defaults_witness :
    (composeConfig emptyEnv "/app" []).main.build.sourcemap = some false ∧
    (composeConfig emptyEnv "/app" []).preload.build.sourcemap = some false ∧
    legalCommentsStripped ((composeConfig emptyEnv "/app" []).main.esbuild) = false ∧
    legalCommentsStripped ((composeConfig emptyEnv "/app" []).renderer.esbuild) = false ∧
    (∀ b, Plugin.codeInspector b ∉ (composeConfig emptyEnv "/app" []).renderer.plugins) ∧
    (composeConfig emptyEnv "/app" []).main.optimizeDeps.noDiscovery = false :=
  c10_off_defaults emptyEnv "/app" [] (by decide) (by decide)

end ElectronVite
